import Mathlib

/-!
Shallow embedding of the MXSEC demo API (`src/api/main.py`).

Modelling choices:
* `datetime` values are integer seconds on an absolute timeline (`Int`).
  `datetime.utcnow()` is called only during module initialisation, so all
  calls are modelled as a single parameter `now : Int`; a fixture field
  `utcnow() - timedelta(...)` becomes `now - <seconds>`.
* Python's `list[:limit]` slice (including its negative-`limit` clamping
  behaviour) is embedded as `pySliceTo`.
* `raise HTTPException(...)` in a handler is embedded as `Except.error`
  carrying the status code and detail string.
* Pydantic's `EmailStr` syntax validation happens in the framework layer
  before the handler body runs; the handler itself only performs a string
  comparison, so handler-level functions range over arbitrary strings.
* The float literal `99.96` is embedded as the exact rational `9996 / 100`.
-/

/-- `class User(BaseModel)` from `src/api/main.py`. -/
structure User where
  id : String
  email : String
  plan : String
deriving DecidableEq, Repr

/-- `class LoginRequest(BaseModel)` from `src/api/main.py`. -/
structure LoginRequest where
  email : String
  password : String
deriving DecidableEq, Repr

/-- `class OverviewResponse(BaseModel)` from `src/api/main.py`. -/
structure OverviewResponse where
  overall_score : Int
  score_change : Int
  attacks_last_24h : Int
  attacks_change_percent : Int
  uptime_percent : Rat
  uptime_note : String
  targets_total : Int
  targets_note : String
deriving DecidableEq, Repr

/-- `class Website(BaseModel)` from `src/api/main.py`. -/
structure Website where
  id : String
  domain : String
  status : String
  last_score : Option Int
  last_scan_at : Option Int
  risk_level : Option String
deriving DecidableEq, Repr

/-- `class Alert(BaseModel)` from `src/api/main.py`. -/
structure Alert where
  id : String
  type : String
  severity : String
  message : String
  target_type : String
  target_label : String
  created_at : Int
  tag : String
deriving DecidableEq, Repr

/-- `fastapi.HTTPException` as raised by the `login` handler: a status code
and a detail message. -/
structure HTTPException where
  status_code : Nat
  detail : String
deriving DecidableEq, Repr

/-- `FAKE_USER` fixture from `src/api/main.py`. -/
def FAKE_USER : User :=
  { id := "u_123", email := "mxdev@example.de", plan := "pro" }

/-- `FAKE_WEBSITES` fixture from `src/api/main.py`; `now` is the value of
`datetime.utcnow()` at module initialisation. -/
def FAKE_WEBSITES (now : Int) : List Website :=
  [ { id := "w_1", domain := "mxdev.de", status := "online",
      last_score := some 93, last_scan_at := some (now - 20 * 60),
      risk_level := some "low" },
    { id := "w_2", domain := "shop.mxdev.de", status := "online",
      last_score := some 81, last_scan_at := some (now - (60 + 30) * 60),
      risk_level := some "medium" },
    { id := "w_3", domain := "demo.mxsec.app", status := "reachable",
      last_score := some 67, last_scan_at := some (now - 12 * 3600),
      risk_level := some "high" },
    { id := "w_4", domain := "kundenprojekt.de", status := "ssl_error",
      last_score := some 54, last_scan_at := some (now - 24 * 3600),
      risk_level := some "critical" } ]

/-- First entry of the `FAKE_ALERTS` fixture (`id="a_1"`). -/
def FAKE_ALERT_1 (now : Int) : Alert :=
  { id := "a_1", type := "cve", severity := "critical",
    message := "Kritische Schwachstelle gefunden",
    target_type := "website", target_label := "kundenprojekt.de",
    created_at := now - 5 * 60, tag := "CVE" }

/-- Second entry of the `FAKE_ALERTS` fixture (`id="a_2"`). -/
def FAKE_ALERT_2 (now : Int) : Alert :=
  { id := "a_2", type := "ssh", severity := "warn",
    message := "Mehrere fehlerhafte SSH Logins",
    target_type := "server", target_label := "mc-prod-01",
    created_at := now - 12 * 60, tag := "SSH" }

/-- Third entry of the `FAKE_ALERTS` fixture (`id="a_3"`). -/
def FAKE_ALERT_3 (now : Int) : Alert :=
  { id := "a_3", type := "info", severity := "info",
    message := "Neue Domain hinzugefügt",
    target_type := "website", target_label := "demo.mxsec.app",
    created_at := now - 34 * 60, tag := "Info" }

/-- Fourth entry of the `FAKE_ALERTS` fixture (`id="a_4"`). -/
def FAKE_ALERT_4 (now : Int) : Alert :=
  { id := "a_4", type := "autofix", severity := "info",
    message := "AutoFix angewendet (Firewall)",
    target_type := "server", target_label := "mc-prod-01",
    created_at := now - 3600, tag := "AutoFix" }

/-- `FAKE_ALERTS` fixture from `src/api/main.py`, in source order. -/
def FAKE_ALERTS (now : Int) : List Alert :=
  [FAKE_ALERT_1 now, FAKE_ALERT_2 now, FAKE_ALERT_3 now, FAKE_ALERT_4 now]

/-- Python's `l[:limit]` slice: for `0 ≤ limit` the first `limit` elements;
for negative `limit` the first `max 0 (len l + limit)` elements (i.e. the
list with `-limit` elements dropped from the end, clamped at empty). -/
def pySliceTo {α : Type} (l : List α) (limit : Int) : List α :=
  if 0 ≤ limit then l.take limit.toNat
  else l.take ((l.length : Int) + limit).toNat

/-- Handler `login` (`POST /api/v1/auth/login`): raises 401 when the email
does not equal `FAKE_USER.email`, otherwise returns `FAKE_USER`; the
password is never inspected. -/
def login (payload : LoginRequest) : Except HTTPException User :=
  if payload.email != FAKE_USER.email then
    Except.error { status_code := 401, detail := "Ungültige Zugangsdaten" }
  else
    Except.ok FAKE_USER

/-- Handler `get_me` (`GET /api/v1/auth/me`): always returns `FAKE_USER`. -/
def get_me : User := FAKE_USER

/-- Handler `get_overview` (`GET /api/v1/overview`): a constant snapshot. -/
def get_overview : OverviewResponse :=
  { overall_score := 89,
    score_change := 4,
    attacks_last_24h := 432,
    attacks_change_percent := 18,
    uptime_percent := 9996 / 100,
    uptime_note := "1 kurzer Ausfall bei shop.mxdev.de (3 Minuten).",
    targets_total := 4,
    targets_note := "3 Websites, 1 Server. Grenze deines Pro-Plans." }

/-- Handler `list_websites` (`GET /api/v1/websites`): returns the
`FAKE_WEBSITES` fixture. -/
def list_websites (now : Int) : List Website := FAKE_WEBSITES now

/-- Handler `list_alerts` (`GET /api/v1/alerts?limit=...`, default 10):
returns `FAKE_ALERTS[:limit]`. -/
def list_alerts (now : Int) (limit : Int) : List Alert :=
  pySliceTo (FAKE_ALERTS now) limit

/-- Handler `root` (`GET /`): static healthcheck payload
`{"status": "ok", "service": "mxsec-api"}`. -/
def root : String × String := ("ok", "mxsec-api")

/-- The process-wide fixture state: the module-level globals the handlers
read (`FAKE_USER`, `FAKE_WEBSITES`, `FAKE_ALERTS`). -/
structure AppState where
  user : User
  websites : List Website
  alerts : List Alert
deriving DecidableEq, Repr

/-- The fixture state as built at module initialisation time `now`. -/
def initState (now : Int) : AppState :=
  { user := FAKE_USER, websites := FAKE_WEBSITES now, alerts := FAKE_ALERTS now }

/-- One API request, covering every operation of the facade. -/
inductive Request where
  | authenticate (email password : String)
  | getCurrentUser
  | getOverview
  | listWebsites
  | listAlerts (limit : Int)
  | healthcheck
deriving DecidableEq, Repr

/-- One API response. -/
inductive Response where
  | userPayload (u : User)
  | failure (e : HTTPException)
  | overview (o : OverviewResponse)
  | websites (ws : List Website)
  | alerts (al : List Alert)
  | health (status service : String)
deriving DecidableEq, Repr

/-- Dispatch one request against the fixture state, returning the response
together with the state after the call. Each branch mirrors the
corresponding handler in `src/api/main.py`, reading the module globals
(here: the state) and performing no assignment, so each branch returns the
state unchanged. -/
def handle (st : AppState) : Request → Response × AppState
  | .authenticate email _password =>
      (if email != st.user.email then
        Response.failure { status_code := 401, detail := "Ungültige Zugangsdaten" }
      else
        Response.userPayload st.user, st)
  | .getCurrentUser => (Response.userPayload st.user, st)
  | .getOverview => (Response.overview get_overview, st)
  | .listWebsites => (Response.websites st.websites, st)
  | .listAlerts limit => (Response.alerts (pySliceTo st.alerts limit), st)
  | .healthcheck => (Response.health "ok" "mxsec-api", st)

/-- Spec-side predicate for C5's "valid domain string": syntactically, a
non-empty string containing at least one dot. -/
def specValidDomain (s : String) : Bool :=
  (!s.data.isEmpty) && s.data.contains '.'

/-- Spec-side set for C5: the documented website status values enumerated
in the spec's data model ({online, reachable, ssl_error, ...}). -/
def specDocumentedStatuses : List String :=
  ["online", "reachable", "ssl_error"]

/-- The `FAKE_ALERTS` fixture has exactly 4 entries. -/
theorem FAKE_ALERTS_length (now : Int) : (FAKE_ALERTS now).length = 4 := rfl

/-- C1: for every nonnegative integer limit, `ListAlerts(limit)` returns
exactly `min(limit, 4)` alerts, is the corresponding prefix of the full
alert sequence (hence in the fixed display order), `limit = 0` gives the
empty sequence, and any `limit ≥ 4` gives all 4 alerts. -/
theorem list_alerts_nonneg_spec (now : Int) (n : Nat) :
    (list_alerts now (n : Int)).length = min n 4 ∧
    list_alerts now (n : Int) = (FAKE_ALERTS now).take n ∧
    list_alerts now (n : Int) <+: FAKE_ALERTS now ∧
    list_alerts now ((0 : Nat) : Int) = [] ∧
    (4 ≤ n → list_alerts now (n : Int) = FAKE_ALERTS now) := by
  have key : list_alerts now (n : Int) = (FAKE_ALERTS now).take n := by
    simp [list_alerts, pySliceTo]
  refine ⟨?_, key, ?_, ?_, ?_⟩
  · rw [key, List.length_take, FAKE_ALERTS_length]
  · rw [key]; exact ⟨(FAKE_ALERTS now).drop n, List.take_append_drop n _⟩
  · simp [list_alerts, pySliceTo]
  · intro h
    rw [key]
    exact List.take_of_length_le (by rw [FAKE_ALERTS_length]; exact h)

/-- Witness for C1 at `now = 0`, `limit = 5 > 4`. -/
theorem list_alerts_nonneg_spec_witness :
    4 ≤ 5 ∧ list_alerts 0 ((5 : Nat) : Int) = FAKE_ALERTS 0 ∧
      (list_alerts 0 ((5 : Nat) : Int)).length = min 5 4 :=
  ⟨by decide, (list_alerts_nonneg_spec 0 5).2.2.2.2 (by decide),
    (list_alerts_nonneg_spec 0 5).1⟩

/-- C2: `Authenticate(email, password)` succeeds with the static user iff
the email equals the configured account's email exactly; on mismatch it
fails with HTTP 401 and the human-readable detail message; and the outcome
never depends on the password. -/
theorem login_spec (email password : String) :
    (login { email := email, password := password } = Except.ok FAKE_USER ↔
      email = FAKE_USER.email) ∧
    (email ≠ FAKE_USER.email →
      login { email := email, password := password } =
        Except.error { status_code := 401, detail := "Ungültige Zugangsdaten" }) ∧
    (∀ password2 : String,
      login { email := email, password := password } =
        login { email := email, password := password2 }) := by
  refine ⟨?_, ?_, fun _ => rfl⟩ <;>
    by_cases h : email = FAKE_USER.email <;>
      simp [login, h]

/-- Witness for C2 at a concrete non-matching email. -/
theorem login_spec_witness :
    "wrong@x.com" ≠ FAKE_USER.email ∧
    login { email := "wrong@x.com", password := "x" } =
      Except.error { status_code := 401, detail := "Ungültige Zugangsdaten" } :=
  ⟨by decide, (login_spec "wrong@x.com" "x").2.1 (by decide)⟩

/-- C3 counterexample: at `limit = -1` the handler returns the FIRST three
alerts (a prefix with the final entry dropped), a nonempty result that does
not contain the last entry of the sequence — so negative slicing does not
return "entries from the end of the alert sequence". -/
theorem list_alerts_neg_counterexample :
    list_alerts 0 (-1) = [FAKE_ALERT_1 0, FAKE_ALERT_2 0, FAKE_ALERT_3 0] ∧
    list_alerts 0 (-1) ≠ [] ∧
    (FAKE_ALERTS 0).getLast? = some (FAKE_ALERT_4 0) ∧
    FAKE_ALERT_4 0 ∉ list_alerts 0 (-1) := by
  refine ⟨rfl, by decide, rfl, by decide⟩

/-- C3 (amended): for every negative integer limit, `ListAlerts(limit)`
does not fail; negative slicing drops `|limit|` entries from the END of the
alert sequence and returns the remaining PREFIX (entries from the start;
empty when `|limit| ≥ 4`). -/
theorem list_alerts_neg_spec (now limit : Int) (h : limit < 0) :
    list_alerts now limit = (FAKE_ALERTS now).take ((4 : Int) + limit).toNat ∧
    list_alerts now limit <+: FAKE_ALERTS now := by
  have hne : ¬ (0 ≤ limit) := not_le.mpr h
  have key : list_alerts now limit =
      (FAKE_ALERTS now).take ((4 : Int) + limit).toNat := by
    simp [list_alerts, pySliceTo, hne, FAKE_ALERTS_length]
  exact ⟨key, key ▸ ⟨_, List.take_append_drop _ _⟩⟩

/-- Witness for C3's amended claim at `now = 0`, `limit = -1`. -/
theorem list_alerts_neg_spec_witness :
    (-1 : Int) < 0 ∧
    list_alerts 0 (-1) = (FAKE_ALERTS 0).take ((4 : Int) + (-1)).toNat :=
  ⟨by decide, (list_alerts_neg_spec 0 (-1) (by decide)).1⟩

/-- C4: for every password, a successful `Authenticate` with the correct
email returns exactly the User payload of `GetCurrentUser()`. -/
theorem login_get_me_agree (password : String) :
    login { email := FAKE_USER.email, password := password } =
      Except.ok get_me := by
  simp [login, get_me]

/-- C5: `ListWebsites()` always returns exactly 4 entries, in a fixed
stable order, with ids `w_1, w_2, w_3, w_4`, each with a valid domain
string and a status from the documented status set. -/
theorem list_websites_spec (now : Int) :
    (list_websites now).length = 4 ∧
    (list_websites now).map Website.id = ["w_1", "w_2", "w_3", "w_4"] ∧
    ((list_websites now).all fun w =>
      specValidDomain w.domain && specDocumentedStatuses.contains w.status)
      = true :=
  ⟨rfl, rfl, rfl⟩

/-- C6: `GetOverview()` always returns the complete snapshot with every
field present and numeric fields exactly as configured; in particular
`overall_score = 89` and `targets_total = 4` on every call. -/
theorem get_overview_spec :
    get_overview.overall_score = 89 ∧
    get_overview.targets_total = 4 ∧
    get_overview =
      { overall_score := 89,
        score_change := 4,
        attacks_last_24h := 432,
        attacks_change_percent := 18,
        uptime_percent := 9996 / 100,
        uptime_note := "1 kurzer Ausfall bei shop.mxdev.de (3 Minuten).",
        targets_total := 4,
        targets_note := "3 Websites, 1 Server. Grenze deines Pro-Plans." } :=
  ⟨rfl, rfl, rfl⟩

/-- C7: fixture invariants, preserved by every operation since no handler
mutates the state: ids are unique within each collection, `last_score` and
`risk_level` are present together on every website, and the alerts'
`created_at` values strictly decrease in display order (newest first). -/
theorem fixtures_invariants (now : Int) :
    ((FAKE_WEBSITES now).map Website.id).Nodup ∧
    ((FAKE_ALERTS now).map Alert.id).Nodup ∧
    ((FAKE_WEBSITES now).all fun w =>
      w.last_score.isSome == w.risk_level.isSome) = true ∧
    List.Chain' (fun a b => b.created_at < a.created_at) (FAKE_ALERTS now) ∧
    (∀ r : Request, (handle (initState now) r).2 = initState now) := by
  refine ⟨?_, ?_, rfl, ?_, ?_⟩
  · exact (by decide : (["w_1", "w_2", "w_3", "w_4"] : List String).Nodup)
  · exact (by decide : (["a_1", "a_2", "a_3", "a_4"] : List String).Nodup)
  · simp only [FAKE_ALERTS, FAKE_ALERT_1, FAKE_ALERT_2, FAKE_ALERT_3,
      FAKE_ALERT_4, List.chain'_cons, List.chain'_singleton, and_true]
    omega
  · intro r; cases r <;> rfl

/-- C8: every operation is deterministic and side-effect-free: dispatching
any request leaves the fixture state unchanged, and a repeated call with
the same input from the resulting state produces the identical output. -/
theorem handle_stateless (st : AppState) (r : Request) :
    (handle st r).2 = st ∧
    (handle ((handle st r).2) r).1 = (handle st r).1 := by
  cases r <;> exact ⟨rfl, rfl⟩

/-- C9: `ListAlerts` is total over all integer limits: for every `limit`
(negative included) the slice returns normally — it is a total function —
with at most 4 alerts forming a prefix of the fixture sequence, hence in
fixture order. -/
theorem list_alerts_total (now limit : Int) :
    (list_alerts now limit).length ≤ 4 ∧
    list_alerts now limit <+: FAKE_ALERTS now := by
  obtain ⟨k, hk⟩ : ∃ k, list_alerts now limit = (FAKE_ALERTS now).take k := by
    unfold list_alerts pySliceTo
    split <;> exact ⟨_, rfl⟩
  rw [hk, List.length_take, FAKE_ALERTS_length]
  exact ⟨min_le_right _ _, (FAKE_ALERTS now).drop k, List.take_append_drop k _⟩

/-- C10: although `last_score`, `last_scan_at` and `risk_level` are
declared optional, every fixture website populates all three, so
`ListWebsites()` never returns an entry with an absent optional field. -/
theorem websites_optionals_populated (now : Int) :
    ((list_websites now).all fun w =>
      w.last_score.isSome && w.last_scan_at.isSome && w.risk_level.isSome)
      = true := rfl
